import Mathlib

/-!
Verification of the NavigAI interview orchestration engine.

This development is a shallow embedding, in Lean 4, of the decision logic of
the NavigAI-api repository: the question bank and Thompson-sampling question
selector, the termination policy, the answer-scoring aggregator, the
performance summarizer, and the session start / answer-submission operations
(`src/services/mock_interview_service.py`,
`src/services/question_generation_service.py`,
`src/services/interview_service.py`, `src/models/mock_interview.py`,
`src/models/interview.py`).

Python floats are modelled as rationals (the properties at stake are exact
threshold comparisons and means), dicts keyed by enum values as total
functions with the `.get(key, 0)` default baked in, dicts keyed by strings as
association lists, and calls to external services (Gemini, Whisper, the
audio stack, Firebase) as oracle arguments: an `Option`/inductive argument
standing for the outcome of the external call.  Functions that can raise in
Python return `Option`/`Except` here.
-/

namespace NavigAI

/-- `QuestionType` from `models/mock_interview.py`.  The model enum omits
`SITUATIONAL`, but `MockInterviewService._initialize_question_bank`
constructs a question with `QuestionType.SITUATIONAL`; we include the
constructor so the bank used by the service is representable. -/
inductive QuestionType where
  | technical
  | behavioral
  | situational
  | problem_solving
  | cultural_fit
  deriving DecidableEq, Repr

/-- `DifficultyLevel` from `models/mock_interview.py`. -/
inductive DifficultyLevel where
  | beginner
  | intermediate
  | advanced
  | expert
  deriving DecidableEq, Repr

/-- The `.value` string of a `DifficultyLevel`. -/
def DifficultyLevel.value : DifficultyLevel → String
  | .beginner => "beginner"
  | .intermediate => "intermediate"
  | .advanced => "advanced"
  | .expert => "expert"

/-- `InterviewStatus` from `models/mock_interview.py` (no `PAUSED` member,
unlike the enum in `models/interview.py`). -/
inductive MockStatus where
  | created
  | in_progress
  | completed
  | cancelled
  deriving DecidableEq, Repr

/-- `Question` from `models/mock_interview.py` (pydantic).  The
auto-generated uuid default for `id` is irrelevant here: every construction
site in the embedded code supplies an explicit id. -/
structure Question where
  id : String
  text : String
  type : QuestionType
  difficulty : DifficultyLevel
  category : String
  expected_keywords : List String := []
  deriving DecidableEq, Repr

/-- `Answer` from `models/mock_interview.py`.  `emotion_scores` is the
emotion-label → weight dict, kept as an association list; the pydantic `id`
and `timestamp` fields play no role in the verified logic and are omitted. -/
structure Answer where
  question_id : String
  text : String
  audio_duration : ℚ := 0
  transcribed_text : String := ""
  emotion_scores : List (String × ℚ) := []
  sentiment_score : ℚ := 0
  confidence_score : ℚ := 1/2
  fluency_score : ℚ := 1/2
  technical_score : ℚ := 1/2
  deriving DecidableEq, Repr

/-- The `adaptive_params` dict of a session, restricted to the two keys the
engine reads; the defaults are the ones passed to `.get` at the read sites
(`key_skills` → `[]`, `experience_level` → `"intermediate"`). -/
structure AdaptiveParams where
  key_skills : List String := []
  experience_level : String := "intermediate"
  deriving DecidableEq, Repr

/-- `InterviewSession` from `models/mock_interview.py`, restricted to the
fields the verified logic reads or writes (timestamps and the job-context
strings are carried but never branched on; the per-session `thompson_params`
field exists on the model but is never read or written by the service). -/
structure MockSession where
  id : String
  job_title : String := ""
  job_description : String := ""
  candidate_id : String := ""
  status : MockStatus := .created
  questions_asked : List String := []
  current_question_index : ℕ := 0
  answers : List Answer := []
  adaptive_params : AdaptiveParams := {}
  deriving DecidableEq, Repr

/-- `np.mean` over a list of rationals (0 on the empty list; every call site
in the embedded code guards non-emptiness). -/
def mean (xs : List ℚ) : ℚ := xs.sum / xs.length

/-- Population variance, i.e. the square of `np.std`.  The source compares
`np.std(xs) < 0.1`; since both sides are non-negative this is equivalent to
`pvariance xs < (0.1)^2`, which is how the comparison is embedded (keeping
everything inside ℚ). -/
def pvariance (xs : List ℚ) : ℚ := mean (xs.map (fun x => (x - mean xs) ^ 2))

/-- Python's `xs[-n:]`: the last `n` elements. -/
def lastN (n : ℕ) (xs : List ℚ) : List ℚ := xs.drop (xs.length - n)

/-- `MockInterviewService.should_end_interview`, on the in-memory session
(the Firebase load is glue; a missing session returns `False` upstream).
The question-count cutoff is the literal `10` in the source
(`if len(session.answers) >= 10:  # Maximum 10 questions`). -/
def shouldEndInterview (s : MockSession) : Bool :=
  let techScores := s.answers.map Answer.technical_score
  if 10 ≤ s.answers.length then
    true
  else if 5 ≤ s.answers.length ∧ pvariance (lastN 5 techScores) < (1/10) ^ 2 then
    true
  else if 3 ≤ s.answers.length ∧ mean (lastN 3 techScores) < 2/5 then
    true
  else
    false

/-- `InterviewSession.max_questions` from `models/interview.py`
(`max_questions: int = 10`) — the dataclass default, also the default used
by `routes/interview.py` (`data.get("max_questions", 10)`). -/
def defaultMaxQuestions : ℕ := 10

/-- `MockInterviewService._initialize_question_bank`: the five built-in
questions (keyword lists reproduced verbatim). -/
def questionBank : List Question :=
  [ { id := "tech_1"
      text := "Explain the concept of object-oriented programming and its main principles."
      type := .technical
      difficulty := .intermediate
      category := "Programming Fundamentals"
      expected_keywords := ["encapsulation", "inheritance", "polymorphism", "abstraction"] },
    { id := "behav_1"
      text := "Tell me about a time when you had to work with a difficult team member."
      type := .behavioral
      difficulty := .intermediate
      category := "Teamwork"
      expected_keywords := ["conflict", "resolution", "communication", "collaboration"] },
    { id := "sit_1"
      text := "How would you handle a situation where you disagree with your manager's technical decision?"
      type := .situational
      difficulty := .advanced
      category := "Problem Solving"
      expected_keywords := ["respect", "communication", "evidence", "compromise"] },
    { id := "prob_1"
      text := "Design a system for a URL shortening service like bit.ly."
      type := .problem_solving
      difficulty := .advanced
      category := "System Design"
      expected_keywords := ["database", "hashing", "scalability", "cache"] },
    { id := "cult_1"
      text := "What type of work environment do you thrive in?"
      type := .cultural_fit
      difficulty := .beginner
      category := "Culture"
      expected_keywords := ["collaborative", "independent", "structured", "flexible"] } ]

/-- Python's substring test `needle in hay`, on character lists. -/
def strContains (hay needle : String) : Bool :=
  (List.range (hay.data.length + 1)).any
    (fun i => needle.data.isPrefixOf (hay.data.drop i))

/-- The candidate performance level, as a string in the source
(`_get_performance_level` returns `"high" | "medium" | "low"`). -/
inductive PerfLevel where
  | low
  | medium
  | high
  deriving DecidableEq, Repr

/-- `MockInterviewService._get_performance_level`: `"medium"` with no
answers, else thresholds on the mean technical score of all answers
(`>= 0.8` → high, `>= 0.6` → medium, else low). -/
def getPerformanceLevel (s : MockSession) : PerfLevel :=
  if s.answers = [] then
    .medium
  else
    let avg := mean (s.answers.map Answer.technical_score)
    if 4/5 ≤ avg then .high
    else if 3/5 ≤ avg then .medium
    else .low

/-- The `difficulty_mapping` dict used in
`MockInterviewService._calculate_question_relevance`. -/
def difficultyMapping (s : String) : Option DifficultyLevel :=
  if s = "beginner" then some .beginner
  else if s = "intermediate" then some .intermediate
  else if s = "advanced" then some .advanced
  else if s = "expert" then some .expert
  else none

/-- `MockInterviewService._calculate_question_relevance`: base 0.5, +0.3 if
the question is technical and some key skill occurs as a substring of the
lower-cased question text, +0.2 on a difficulty match with the job's
experience level, capped at 1. -/
def calculateQuestionRelevance (q : Question) (s : MockSession) : ℚ :=
  let key_skills := s.adaptive_params.key_skills
  let experience_level := s.adaptive_params.experience_level
  let relevance : ℚ := 1/2
  let relevance :=
    if q.type = .technical ∧ key_skills.any (fun sk => strContains q.text.toLower sk) then
      relevance + 3/10
    else relevance
  let relevance :=
    if q.difficulty = (difficultyMapping experience_level).getD .intermediate then
      relevance + 1/5
    else relevance
  min relevance 1

/-- One scored candidate inside `thompson_sampling_question_selection`:
`type_score` and `difficulty_score` are the Beta draws for the question's
arms (the draws themselves are the random oracle `ts`/`ds`), the
difficulty draw is multiplied by 0.7 when the performance level penalizes
that difficulty, and the total is the mean of the three components. -/
def questionScore (ts : QuestionType → ℚ) (ds : DifficultyLevel → ℚ)
    (level : PerfLevel) (s : MockSession) (q : Question) : ℚ :=
  let type_score := ts q.type
  let difficulty_score := ds q.difficulty
  let difficulty_score :=
    if level = .high ∧ (q.difficulty = .beginner ∨ q.difficulty = .intermediate) then
      difficulty_score * (7/10)
    else if level = .low ∧ (q.difficulty = .advanced ∨ q.difficulty = .expert) then
      difficulty_score * (7/10)
    else difficulty_score
  (type_score + difficulty_score + calculateQuestionRelevance q s) / 3

/-- The `suitable_questions` list built by
`thompson_sampling_question_selection`: every bank question not already
asked, paired with its score, in bank order. -/
def scoredCandidates (ts : QuestionType → ℚ) (ds : DifficultyLevel → ℚ)
    (bank : List Question) (s : MockSession) : List (Question × ℚ) :=
  (bank.filter (fun q => ¬ q.id ∈ s.questions_asked)).map
    (fun q => (q, questionScore ts ds (getPerformanceLevel s) s q))

/-- `suitable_questions.sort(key=score, reverse=True)` followed by `[0]`:
Python's sort is stable, so the selected pair is the first pair attaining
the maximal score.  `pickBest` computes that pair directly: it replaces the
current best only on a strictly larger score. -/
def pickBest (p : Question × ℚ) : List (Question × ℚ) → Question × ℚ
  | [] => p
  | q :: qs => if p.2 < q.2 then pickBest q qs else pickBest p qs

/-- `MockInterviewService.thompson_sampling_question_selection`.  The Beta
draws are the oracles `ts`/`ds`; `fallbackIdx` is the oracle for
`random.choice(self.question_bank)` on the no-candidate path (`none` only
when the bank itself is empty, where Python's `random.choice` raises). -/
def thompsonSamplingQuestionSelection (ts : QuestionType → ℚ)
    (ds : DifficultyLevel → ℚ) (bank : List Question) (s : MockSession)
    (fallbackIdx : ℕ) : Option Question :=
  match scoredCandidates ts ds bank s with
  | [] => bank.get? (fallbackIdx % bank.length)
  | c :: cs => some (pickBest c cs).1

/-- `MockInterviewService.get_next_question` on the in-memory session:
select a question, append its id to `questions_asked`, advance the index. -/
def getNextQuestion (ts : QuestionType → ℚ) (ds : DifficultyLevel → ℚ)
    (bank : List Question) (s : MockSession) (fallbackIdx : ℕ) :
    Option (Question × MockSession) :=
  match thompsonSamplingQuestionSelection ts ds bank s fallbackIdx with
  | none => none
  | some q =>
      some (q, { s with
        questions_asked := s.questions_asked ++ [q.id]
        current_question_index := s.current_question_index + 1 })

/-- `ThompsonSamplingParams` from `models/mock_interview.py`: four
count dicts.  Dicts keyed by enum values are modelled as total functions;
the initial empty dict is the constant-0 function, matching every read site
`dict.get(key, 0)`. -/
structure TSParams where
  question_type_success : QuestionType → ℕ := fun _ => 0
  question_type_failure : QuestionType → ℕ := fun _ => 0
  difficulty_success : DifficultyLevel → ℕ := fun _ => 0
  difficulty_failure : DifficultyLevel → ℕ := fun _ => 0

/-- `MockInterviewService._update_thompson_params`: look the answered
question up in the bank by id; if absent, return with no change; otherwise
increment the success (technical score ≥ 0.7) or failure counter of both the
question's type arm and difficulty arm. -/
def updateThompsonParams (bank : List Question) (p : TSParams) (a : Answer) :
    TSParams :=
  match bank.find? (fun q => q.id = a.question_id) with
  | none => p
  | some q =>
      let p :=
        if 7/10 ≤ a.technical_score then
          { p with question_type_success := fun t =>
              if t = q.type then p.question_type_success t + 1
              else p.question_type_success t }
        else
          { p with question_type_failure := fun t =>
              if t = q.type then p.question_type_failure t + 1
              else p.question_type_failure t }
      if 7/10 ≤ a.technical_score then
        { p with difficulty_success := fun d =>
            if d = q.difficulty then p.difficulty_success d + 1
            else p.difficulty_success d }
      else
        { p with difficulty_failure := fun d =>
            if d = q.difficulty then p.difficulty_failure d + 1
            else p.difficulty_failure d }

/-- The state of the `MockInterviewService` singleton
(`routes/mock_interview.py` creates exactly one: `service =
MockInterviewService()`), together with the Firebase session store it
reads and writes: `self.thompson_params` is a single instance attribute,
not part of any session document. -/
structure ServiceState where
  thompson_params : TSParams := {}
  store : String → Option MockSession := fun _ => none

/-- The Beta parameters `(alpha, beta)` that
`thompson_sampling_question_selection` computes for a question-type arm
(`self.thompson_params.question_type_success.get(q_type, 0) + 1`, same for
failure).  Note the state is the only input: the session being selected for
does not enter. -/
def selectionTypeBetaParams (st : ServiceState) (t : QuestionType) : ℕ × ℕ :=
  (st.thompson_params.question_type_success t + 1,
   st.thompson_params.question_type_failure t + 1)

/-- The Beta parameters for a difficulty arm, as computed by
`thompson_sampling_question_selection`. -/
def selectionDifficultyBetaParams (st : ServiceState) (d : DifficultyLevel) :
    ℕ × ℕ :=
  (st.thompson_params.difficulty_success d + 1,
   st.thompson_params.difficulty_failure d + 1)

/-- `MockInterviewService.submit_answer`: load the session (returning
`False` and changing nothing when absent), append the answer, update the
shared Thompson parameters, save the session. -/
def submitAnswer (bank : List Question) (st : ServiceState) (sid : String)
    (a : Answer) : Bool × ServiceState :=
  match st.store sid with
  | none => (false, st)
  | some sess =>
      let sess := { sess with answers := sess.answers ++ [a] }
      let params := updateThompsonParams bank st.thompson_params a
      (true,
       { thompson_params := params
         store := fun i => if i = sid then some sess else st.store i })

/-- `MockInterviewService.start_interview`: load the session (returning
`False` when absent) and set its status to `IN_PROGRESS` — there is no
check of the current status.  The `started_at := datetime.now()` write is
a timestamp and is not modelled. -/
def mockStartInterview (st : ServiceState) (sid : String) :
    Bool × ServiceState :=
  match st.store sid with
  | none => (false, st)
  | some sess =>
      let sess := { sess with status := MockStatus.in_progress }
      (true,
       { st with store := fun i => if i = sid then some sess else st.store i })

/-- `InterviewStatus` from `models/interview.py` (the dataclass model used
by `InterviewService`; this enum has `PAUSED`). -/
inductive IVStatus where
  | created
  | in_progress
  | completed
  | paused
  | cancelled
  deriving DecidableEq, Repr

/-- `InterviewSession` from `models/interview.py`, restricted to the fields
`start_interview_session` branches on or mutates.  Generated questions are
kept as their texts. -/
structure IVSession where
  id : String := ""
  user_id : String := ""
  status : IVStatus := .created
  max_questions : ℕ := defaultMaxQuestions
  questions : List String := []

/-- The failure outcomes of `InterviewService.start_interview_session`:
`ValueError(f"Interview session {id} not found")` and
`ValueError(f"Interview session is in {status} state, cannot start")` —
the second carries the current status. -/
inductive StartError where
  | sessionNotFound (sid : String)
  | invalidState (current : IVStatus)
  deriving DecidableEq, Repr

/-- `InterviewService.start_interview_session` up to its persistence
point: raise when the session is missing, raise (naming the current state)
when the status is not `CREATED` — leaving the store untouched — else
transition to `IN_PROGRESS` and append the generated questions
(`genQuestions` is the oracle for the Gemini question-generation call). -/
def startInterviewSession (genQuestions : List String)
    (store : String → Option IVSession) (sid : String) :
    Except StartError (String → Option IVSession) :=
  match store sid with
  | none => .error (.sessionNotFound sid)
  | some sess =>
      if sess.status ≠ .created then
        .error (.invalidState sess.status)
      else
        let sess := { sess with
          status := IVStatus.in_progress
          questions := sess.questions ++ genQuestions }
        .ok (fun i => if i = sid then some sess else store i)

/-- `PerformanceMetrics` from `models/mock_interview.py`, with the pydantic
field defaults. -/
structure PerformanceMetrics where
  communication_score : ℚ := 0
  technical_score : ℚ := 0
  emotional_intelligence_score : ℚ := 0
  behavioral_score : ℚ := 0
  overall_score : ℚ := 0
  strengths : List String := []
  weaknesses : List String := []
  recommendations : List String := []
  deriving DecidableEq, Repr

/-- Python's `max(values)`: `none` on the empty collection, where the
builtin raises `ValueError`. -/
def pyMax : List ℚ → Option ℚ
  | [] => none
  | x :: xs => some (xs.foldl max x)

/-- Evaluation of a Python list comprehension whose body may raise: the
whole list is produced unless some element raises (`none`), in which case
the comprehension raises. -/
def collectSome : List (Option ℚ) → Option (List ℚ)
  | [] => some []
  | none :: _ => none
  | some x :: rest => (collectSome rest).map (fun l => x :: l)

/-- `MockInterviewService._identify_strengths`: one fixed line per axis
with score ≥ 0.8, and the placeholder when no axis qualifies. -/
def identifyStrengths (m : PerformanceMetrics) : List String :=
  let strengths : List String := []
  let strengths :=
    if 4/5 ≤ m.technical_score then
      strengths ++ ["Strong technical knowledge"] else strengths
  let strengths :=
    if 4/5 ≤ m.communication_score then
      strengths ++ ["Excellent communication skills"] else strengths
  let strengths :=
    if 4/5 ≤ m.emotional_intelligence_score then
      strengths ++ ["High emotional intelligence"] else strengths
  let strengths :=
    if 4/5 ≤ m.behavioral_score then
      strengths ++ ["Good behavioral responses"] else strengths
  if strengths = [] then ["Areas for improvement identified"] else strengths

/-- `MockInterviewService._identify_weaknesses`: one fixed line per axis
with score < 0.6, and the placeholder when no axis qualifies. -/
def identifyWeaknesses (m : PerformanceMetrics) : List String :=
  let weaknesses : List String := []
  let weaknesses :=
    if m.technical_score < 3/5 then
      weaknesses ++ ["Technical knowledge needs improvement"] else weaknesses
  let weaknesses :=
    if m.communication_score < 3/5 then
      weaknesses ++ ["Communication skills need development"] else weaknesses
  let weaknesses :=
    if m.emotional_intelligence_score < 3/5 then
      weaknesses ++ ["Emotional intelligence could be enhanced"] else weaknesses
  let weaknesses :=
    if m.behavioral_score < 3/5 then
      weaknesses ++ ["Behavioral responses need refinement"] else weaknesses
  if weaknesses = [] then ["No significant weaknesses identified"] else weaknesses

/-- `MockInterviewService._generate_recommendations`: data-driven lines for
axes below 0.7 (the technical one referencing the job's first two key
skills), then the two fixed closing recommendations. -/
def generateRecommendations (m : PerformanceMetrics) (s : MockSession) :
    List String :=
  let recommendations : List String := []
  let recommendations :=
    if m.technical_score < 7/10 then
      let key_skills := s.adaptive_params.key_skills
      if key_skills ≠ [] then
        recommendations ++
          ["Focus on improving " ++
            String.intercalate ", " (key_skills.take 2) ++ " skills"]
      else recommendations
    else recommendations
  let recommendations :=
    if m.communication_score < 7/10 then
      recommendations ++ ["Practice clear and structured communication"]
    else recommendations
  let recommendations :=
    if m.emotional_intelligence_score < 7/10 then
      recommendations ++ ["Work on confidence and stress management"]
    else recommendations
  recommendations ++
    ["Continue practicing mock interviews",
     "Research the company and role thoroughly"]

/-- `MockInterviewService._calculate_performance_metrics`.  The empty
session short-circuits to the default `PerformanceMetrics()`.  Otherwise
the per-axis score lists are built and averaged;
`max(answer.emotion_scores.values())` raises `ValueError` on an answer
with an empty emotion dict, which is the `none` outcome here. -/
def calculatePerformanceMetrics (s : MockSession) :
    Option PerformanceMetrics :=
  if s.answers = [] then
    some {}
  else
    let technical_scores := s.answers.map Answer.technical_score
    let communication_scores :=
      s.answers.map (fun a => (a.fluency_score + a.confidence_score) / 2)
    match collectSome (s.answers.map (fun a => pyMax (a.emotion_scores.map Prod.snd))) with
    | none => none
    | some emotional_scores =>
        let behavioral_scores := s.answers.map Answer.sentiment_score
        let m : PerformanceMetrics :=
          { communication_score := mean communication_scores
            technical_score := mean technical_scores
            emotional_intelligence_score := mean emotional_scores
            behavioral_score := mean behavioral_scores
            overall_score := mean [mean technical_scores, mean communication_scores] }
        let m := { m with strengths := identifyStrengths m }
        let m := { m with weaknesses := identifyWeaknesses m }
        let m := { m with recommendations := generateRecommendations m s }
        some m

/-- The dict returned by `MockInterviewService._analyze_text_response`. -/
structure TextAnalysisResult where
  technical_score : ℚ
  sentiment_score : ℚ
  confidence_score : ℚ
  relevance_score : ℚ
  clarity_score : ℚ
  deriving DecidableEq, Repr

/-- The fallback dict `_analyze_text_response` returns when the Gemini
call or the JSON parse fails. -/
def fallbackTextAnalysis : TextAnalysisResult :=
  { technical_score := 1/2
    sentiment_score := 0
    confidence_score := 1/2
    relevance_score := 1/2
    clarity_score := 1/2 }

/-- `MockInterviewService._analyze_text_response`: the oracle is the
successfully parsed analysis of the external call; any failure yields the
neutral fallback dict. -/
def analyzeTextResponse (oracle : Option TextAnalysisResult) :
    TextAnalysisResult :=
  oracle.getD fallbackTextAnalysis

/-- `AudioAnalysis` from `models/mock_interview.py` with its pydantic
defaults (`fluency_score = 0.5`, empty emotion dict). -/
structure AudioAnalysis where
  pitch : Option ℚ := none
  speech_rate : Option ℚ := none
  pauses_count : Option ℕ := none
  fluency_score : ℚ := 1/2
  emotion_scores : List (String × ℚ) := []
  clarity_score : ℚ := 1/2
  pace_score : ℚ := 1/2
  deriving DecidableEq, Repr

/-- `MockInterviewService._analyze_audio_features`: the oracle is the
analysis computed from the recorded wav; any exception yields the default
`AudioAnalysis()`. -/
def analyzeAudioFeatures (oracle : Option AudioAnalysis) : AudioAnalysis :=
  oracle.getD {}

/-- `MockInterviewService.analyze_response`: combine the audio-feature and
text-analysis results into an `Answer` (the timestamp is not modelled;
`audio_duration` comes from `_get_audio_duration`, passed through as
`dur`). -/
def analyzeResponse (textOracle : Option TextAnalysisResult)
    (audioOracle : Option AudioAnalysis) (q : Question)
    (transcribed : String) (dur : ℚ) : Answer :=
  let audio_analysis := analyzeAudioFeatures audioOracle
  let text_analysis := analyzeTextResponse textOracle
  { question_id := q.id
    text := transcribed
    audio_duration := dur
    transcribed_text := transcribed
    emotion_scores := audio_analysis.emotion_scores
    sentiment_score := text_analysis.sentiment_score
    confidence_score := text_analysis.confidence_score
    fluency_score := audio_analysis.fluency_score
    technical_score := text_analysis.technical_score }

/-- The mutable state of `QuestionGenerationService`: the difficulty
progression tracker. -/
structure QGenState where
  current_difficulty : DifficultyLevel := .beginner
  question_count : ℕ := 0
  deriving DecidableEq, Repr

/-- `QuestionGenerationService._update_difficulty`, with the
`difficulty_progression` table `{beginner: 3, intermediate: 5, advanced: 7,
expert: 5}` inlined: count < 3 → beginner, < 3+5 → intermediate,
< 3+5+7 → advanced, else expert. -/
def updateDifficulty (st : QGenState) : QGenState :=
  let cd :=
    if st.question_count < 3 then DifficultyLevel.beginner
    else if st.question_count < 3 + 5 then DifficultyLevel.intermediate
    else if st.question_count < 3 + 5 + 7 then DifficultyLevel.advanced
    else DifficultyLevel.expert
  { st with current_difficulty := cd }

/-- `QuestionGenerationService._adjust_difficulty_based_on_performance`:
average the three performance scores (each read with default 0.5); below
0.4 step the current difficulty down one level, above 0.8 step it up one
level, otherwise keep it. -/
def adjustDifficultyBasedOnPerformance (cur : DifficultyLevel)
    (technical communication confidence : ℚ) : DifficultyLevel :=
  let avg := (technical + communication + confidence) / 3
  if avg < 2/5 ∧ cur ≠ .beginner then
    match cur with
    | .expert => .advanced
    | .advanced => .intermediate
    | .intermediate => .beginner
    | .beginner => cur
  else if 4/5 < avg ∧ cur ≠ .expert then
    match cur with
    | .beginner => .intermediate
    | .intermediate => .advanced
    | .advanced => .expert
    | .expert => cur
  else cur

/-- The `difficulty_questions` table of
`QuestionGenerationService._get_fallback_question`. -/
def fallbackText : DifficultyLevel → String
  | .beginner => "Could you tell me about your background and experience?"
  | .intermediate => "Can you describe a project you're particularly proud of?"
  | .advanced => "How would you approach solving a complex technical problem?"
  | .expert => "Can you discuss your experience with system architecture and design patterns?"

/-- The `difficulty_categories` table of `_get_fallback_question`. -/
def fallbackCategory : DifficultyLevel → String
  | .beginner => "Background"
  | .intermediate => "Experience"
  | .advanced => "Problem Solving"
  | .expert => "Architecture"

/-- The `difficulty_keywords` table of `_get_fallback_question`. -/
def fallbackKeywords : DifficultyLevel → List String
  | .beginner => ["background", "experience", "skills", "introduction"]
  | .intermediate => ["project", "challenges", "solutions", "achievements"]
  | .advanced => ["approach", "problem", "solution", "technical"]
  | .expert => ["architecture", "design", "patterns", "systems"]

/-- `QuestionGenerationService._get_fallback_question`: a fixed template
question per difficulty, with id `fallback_<difficulty>` and type
`BEHAVIORAL` (the `.get` defaults never fire: the tables cover every
difficulty). -/
def getFallbackQuestion (d : DifficultyLevel) : Question :=
  { id := "fallback_" ++ d.value
    text := fallbackText d
    type := .behavioral
    difficulty := d
    category := fallbackCategory d
    expected_keywords := fallbackKeywords d }

/-- The possible outcomes of the external Gemini call inside
`generate_contextual_next_question`: the API call raising, the response
failing to parse as JSON (even after the quote/comma fixes), the parsed
object missing a required field, or a successfully parsed question. -/
inductive GenOutcome where
  | apiError
  | unparseable
  | missingFields
  | parsed (q : Question)
  deriving DecidableEq, Repr

/-- `QuestionGenerationService.generate_contextual_next_question`: update
the progression difficulty, compute the performance-adjusted difficulty,
then either return the parsed question (incrementing `question_count`) or,
on any failure of the external call or its parsing, return
`_get_fallback_question(adjusted_difficulty)` (count not incremented). -/
def generateContextualNextQuestion (st : QGenState)
    (technical communication confidence : ℚ) (outcome : GenOutcome) :
    Question × QGenState :=
  let st := updateDifficulty st
  let adjusted_difficulty :=
    adjustDifficultyBasedOnPerformance st.current_difficulty
      technical communication confidence
  match outcome with
  | .parsed q => (q, { st with question_count := st.question_count + 1 })
  | _ => (getFallbackQuestion adjusted_difficulty, st)

/-! Concrete instances used in the boundary tests and counterexamples. -/

/-- An answer with every field defaulted except the referenced question and
the technical score. -/
def mkAnswer (qid : String) (tech : ℚ) : Answer :=
  { question_id := qid, text := "", technical_score := tech }

/-- Constant type-arm Beta-draw oracle (all draws come back 0.5). -/
def tsConst : QuestionType → ℚ := fun _ => 1/2

/-- Constant difficulty-arm Beta-draw oracle. -/
def dsConst : DifficultyLevel → ℚ := fun _ => 1/2

/-- A freshly created session: no questions asked, no answers, default
adaptive params. -/
def freshSession : MockSession := { id := "R" }

/-- One orchestration step: ask the next selected question (constant
Beta-draw oracles, fallback index 0), keeping the updated session. -/
def stepSession (s : MockSession) : MockSession :=
  ((getNextQuestion tsConst dsConst questionBank s 0).map Prod.snd).getD s

/-- The session reached after `n` question selections from `freshSession`. -/
def sessAfter : ℕ → MockSession
  | 0 => freshSession
  | n + 1 => stepSession (sessAfter n)

/-- Ten technical scores alternating 0.9 / 0.5: varied (no plateau in the
last five) and strong (no poor-performance stop in the last three). -/
def variedScores : List ℚ :=
  [9/10, 1/2, 9/10, 1/2, 9/10, 1/2, 9/10, 1/2, 9/10, 1/2]

/-- A session holding ten answers with the varied scores. -/
def sVaried : MockSession :=
  { id := "V", answers := variedScores.map (mkAnswer "tech_1") }

/-- Two empty sessions under distinct ids, and a service state holding
both, with fresh (all-zero) Thompson parameters. -/
def sessA : MockSession := { id := "A" }

/-- See `sessA`. -/
def sessB : MockSession := { id := "B" }

/-- Service singleton state storing `sessA` and `sessB`. -/
def stAB : ServiceState :=
  { store := fun i =>
      if i = "A" then some sessA else if i = "B" then some sessB else none }

/-- A strong answer (technical score 1) to the bank question `tech_1`. -/
def ansTech1 : Answer := mkAnswer "tech_1" 1

/-- A completed session, and a service state storing it. -/
def completedSession : MockSession := { id := "S", status := .completed }

/-- See `completedSession`. -/
def stCompleted : ServiceState :=
  { store := fun i => if i = "S" then some completedSession else none }

/-- A completed `InterviewService` session and a store holding it. -/
def ivCompleted : IVSession := { id := "T", status := .completed }

/-- See `ivCompleted`. -/
def ivStore : String → Option IVSession :=
  fun i => if i = "T" then some ivCompleted else none

/-- A session whose single answer carries no emotion data. -/
def sEmptyEmotion : MockSession :=
  { id := "E", answers := [mkAnswer "tech_1" (1/2)] }

/-- A session whose single answer carries one emotion weight. -/
def sOneEmotion : MockSession :=
  { id := "W",
    answers := [{ mkAnswer "tech_1" (1/2) with
      emotion_scores := [("confident", 7/10)] }] }

/-- A session with no answers at all. -/
def sNoAnswers : MockSession := { id := "N" }

/-- The dominant-emotion weight of an answer's emotion dict, total version
(0 on the empty dict, where the source raises): used to state what the
summarizer computes when no answer has empty emotion data. -/
def maxWeight (l : List (String × ℚ)) : ℚ :=
  (pyMax (l.map Prod.snd)).getD 0

/-! Helper lemmas. -/

/-- `pickBest p l` splits `p :: l` into a strictly-smaller prefix, the
chosen pair, and a no-larger suffix: the stable argmax of Python's
`sort(reverse=True)` followed by `[0]`. -/
theorem pickBest_split (l : List (Question × ℚ)) (p : Question × ℚ) :
    ∃ l₁ l₂, p :: l = l₁ ++ pickBest p l :: l₂ ∧
      (∀ x ∈ l₁, x.2 < (pickBest p l).2) ∧
      (∀ x ∈ l₂, x.2 ≤ (pickBest p l).2) := by
  induction l generalizing p with
  | nil => exact ⟨[], [], rfl, by simp, by simp⟩
  | cons q qs ih =>
    by_cases hpq : p.2 < q.2
    · have hr : pickBest p (q :: qs) = pickBest q qs := by
        simp only [pickBest, if_pos hpq]
      obtain ⟨l₁, l₂, heq, h₁, h₂⟩ := ih q
      have hqr : q.2 ≤ (pickBest q qs).2 := by
        cases l₁ with
        | nil =>
          simp only [List.nil_append] at heq
          injection heq with hhead htail
          rw [← hhead]
        | cons a t =>
          simp only [List.cons_append] at heq
          injection heq with hhead htail
          exact le_of_lt (hhead ▸ h₁ a (List.mem_cons_self a t))
      refine ⟨p :: l₁, l₂, ?_, ?_, ?_⟩
      · rw [hr, List.cons_append, ← heq]
      · intro x hx
        rw [hr]
        rcases List.mem_cons.mp hx with hx | hx
        · subst hx; exact lt_of_lt_of_le hpq hqr
        · exact h₁ x hx
      · intro x hx
        rw [hr]
        exact h₂ x hx
    · have hr : pickBest p (q :: qs) = pickBest p qs := by
        simp only [pickBest, if_neg hpq]
      obtain ⟨l₁, l₂, heq, h₁, h₂⟩ := ih p
      cases l₁ with
      | nil =>
        simp only [List.nil_append] at heq
        injection heq with hhead htail
        refine ⟨[], q :: qs, ?_, by simp, ?_⟩
        · rw [List.nil_append, hr, ← hhead]
        · intro x hx
          rw [hr, ← hhead]
          rcases List.mem_cons.mp hx with hx | hx
          · subst hx; exact le_of_not_lt hpq
          · rw [hhead]
            exact h₂ x (htail ▸ hx)
      | cons a t =>
        simp only [List.cons_append] at heq
        injection heq with hhead htail
        have hpl : p.2 < (pickBest p qs).2 := by
          have hm := h₁ a (List.mem_cons_self a t)
          rw [← hhead] at hm
          exact hm
        refine ⟨p :: q :: t, l₂, ?_, ?_, ?_⟩
        · rw [hr]
          simp only [List.cons_append]
          conv_lhs => rw [htail]
        · intro x hx
          rw [hr]
          rcases List.mem_cons.mp hx with hx | hx
          · subst hx; exact hpl
          rcases List.mem_cons.mp hx with hx | hx
          · subst hx; exact lt_of_le_of_lt (le_of_not_lt hpq) hpl
          · exact h₁ x (List.mem_cons_of_mem a hx)
        · intro x hx
          rw [hr]
          exact h₂ x hx

/-- On a non-empty emotion dict, `pyMax` of the weights is the (total)
`maxWeight`. -/
theorem pyMax_of_ne_nil (l : List (String × ℚ)) (h : l ≠ []) :
    pyMax (l.map Prod.snd) = some (maxWeight l) := by
  cases l with
  | nil => exact absurd rfl h
  | cons x xs => simp [pyMax, maxWeight]

/-- When every answer carries emotion data, the emotional-score
comprehension evaluates without raising, to the per-answer dominant
weights. -/
theorem collectSome_emotions (L : List Answer)
    (h : ∀ a ∈ L, a.emotion_scores ≠ []) :
    collectSome (L.map (fun a => pyMax (a.emotion_scores.map Prod.snd))) =
      some (L.map (fun a => maxWeight a.emotion_scores)) := by
  induction L with
  | nil => rfl
  | cons a as ih =>
    have ha := h a (by simp)
    have has : ∀ x ∈ as, x.emotion_scores ≠ [] := fun x hx => h x (by simp [hx])
    simp only [List.map_cons, pyMax_of_ne_nil a.emotion_scores ha, collectSome,
      ih has]
    rfl

/-- `identifyStrengths` never returns the empty list. -/
theorem identifyStrengths_ne_nil (m : PerformanceMetrics) :
    identifyStrengths m ≠ [] := by
  unfold identifyStrengths
  split_ifs <;> simp_all

/-- `identifyWeaknesses` never returns the empty list. -/
theorem identifyWeaknesses_ne_nil (m : PerformanceMetrics) :
    identifyWeaknesses m ≠ [] := by
  unfold identifyWeaknesses
  split_ifs <;> simp_all

/-- Each axis at or above 0.8 contributes its strength line. -/
theorem identifyStrengths_mem (m : PerformanceMetrics) :
    (4/5 ≤ m.technical_score → "Strong technical knowledge" ∈ identifyStrengths m) ∧
    (4/5 ≤ m.communication_score → "Excellent communication skills" ∈ identifyStrengths m) ∧
    (4/5 ≤ m.emotional_intelligence_score → "High emotional intelligence" ∈ identifyStrengths m) ∧
    (4/5 ≤ m.behavioral_score → "Good behavioral responses" ∈ identifyStrengths m) := by
  unfold identifyStrengths
  split_ifs <;> simp_all

/-- Each axis below 0.6 contributes its weakness line. -/
theorem identifyWeaknesses_mem (m : PerformanceMetrics) :
    (m.technical_score < 3/5 → "Technical knowledge needs improvement" ∈ identifyWeaknesses m) ∧
    (m.communication_score < 3/5 → "Communication skills need development" ∈ identifyWeaknesses m) ∧
    (m.emotional_intelligence_score < 3/5 → "Emotional intelligence could be enhanced" ∈ identifyWeaknesses m) ∧
    (m.behavioral_score < 3/5 → "Behavioral responses need refinement" ∈ identifyWeaknesses m) := by
  unfold identifyWeaknesses
  split_ifs <;> simp_all

/-- When no axis reaches 0.8 the strengths list is exactly the
placeholder. -/
theorem identifyStrengths_placeholder (m : PerformanceMetrics)
    (h1 : ¬ 4/5 ≤ m.technical_score) (h2 : ¬ 4/5 ≤ m.communication_score)
    (h3 : ¬ 4/5 ≤ m.emotional_intelligence_score)
    (h4 : ¬ 4/5 ≤ m.behavioral_score) :
    identifyStrengths m = ["Areas for improvement identified"] := by
  unfold identifyStrengths
  simp [h1, h2, h3, h4]

/-- When no axis is below 0.6 the weaknesses list is exactly the
placeholder. -/
theorem identifyWeaknesses_placeholder (m : PerformanceMetrics)
    (h1 : ¬ m.technical_score < 3/5) (h2 : ¬ m.communication_score < 3/5)
    (h3 : ¬ m.emotional_intelligence_score < 3/5)
    (h4 : ¬ m.behavioral_score < 3/5) :
    identifyWeaknesses m = ["No significant weaknesses identified"] := by
  unfold identifyWeaknesses
  simp [h1, h2, h3, h4]

/-- Step 1 of the concrete orchestration trace: the fresh session receives
`tech_1`. -/
theorem traceStep1 : sessAfter 1 =
    { id := "R", questions_asked := ["tech_1"], current_question_index := 1 } := by
  simp +decide [sessAfter, stepSession, freshSession, getNextQuestion,
    thompsonSamplingQuestionSelection, scoredCandidates, questionScore,
    getPerformanceLevel, calculateQuestionRelevance, difficultyMapping,
    pickBest, questionBank, tsConst, dsConst, mean]
  norm_num

/-- Step 2 of the trace: `behav_1`. -/
theorem traceStep2 : sessAfter 2 =
    { id := "R", questions_asked := ["tech_1", "behav_1"],
      current_question_index := 2 } := by
  rw [show (2 : ℕ) = 1 + 1 from rfl, sessAfter, traceStep1]
  simp +decide [stepSession, getNextQuestion,
    thompsonSamplingQuestionSelection, scoredCandidates, questionScore,
    getPerformanceLevel, calculateQuestionRelevance, difficultyMapping,
    pickBest, questionBank, tsConst, dsConst, mean]
  norm_num

/-- Step 3 of the trace: `sit_1`. -/
theorem traceStep3 : sessAfter 3 =
    { id := "R", questions_asked := ["tech_1", "behav_1", "sit_1"],
      current_question_index := 3 } := by
  rw [show (3 : ℕ) = 2 + 1 from rfl, sessAfter, traceStep2]
  simp +decide [stepSession, getNextQuestion,
    thompsonSamplingQuestionSelection, scoredCandidates, questionScore,
    getPerformanceLevel, calculateQuestionRelevance, difficultyMapping,
    pickBest, questionBank, tsConst, dsConst, mean]

/-- Step 4 of the trace: `prob_1`. -/
theorem traceStep4 : sessAfter 4 =
    { id := "R", questions_asked := ["tech_1", "behav_1", "sit_1", "prob_1"],
      current_question_index := 4 } := by
  rw [show (4 : ℕ) = 3 + 1 from rfl, sessAfter, traceStep3]
  simp +decide [stepSession, getNextQuestion,
    thompsonSamplingQuestionSelection, scoredCandidates, questionScore,
    getPerformanceLevel, calculateQuestionRelevance, difficultyMapping,
    pickBest, questionBank, tsConst, dsConst, mean]

/-- Step 5 of the trace: `cult_1`; the bank is now exhausted. -/
theorem traceStep5 : sessAfter 5 =
    { id := "R",
      questions_asked := ["tech_1", "behav_1", "sit_1", "prob_1", "cult_1"],
      current_question_index := 5 } := by
  rw [show (5 : ℕ) = 4 + 1 from rfl, sessAfter, traceStep4]
  simp +decide [stepSession, getNextQuestion,
    thompsonSamplingQuestionSelection, scoredCandidates, questionScore,
    getPerformanceLevel, calculateQuestionRelevance, difficultyMapping,
    pickBest, questionBank, tsConst, dsConst, mean]

/-- Step 6 of the trace: every bank question has been asked, so the
selector falls back to `random.choice` over the full bank (oracle index 0)
and returns `tech_1` a second time. -/
theorem traceStep6 : sessAfter 6 =
    { id := "R",
      questions_asked :=
        ["tech_1", "behav_1", "sit_1", "prob_1", "cult_1", "tech_1"],
      current_question_index := 6 } := by
  rw [show (6 : ℕ) = 5 + 1 from rfl, sessAfter, traceStep5]
  simp +decide [stepSession, getNextQuestion,
    thompsonSamplingQuestionSelection, scoredCandidates, questionBank]

/-- The metrics of `sOneEmotion`, computed by hand: used to witness the
summarizer theorems on a concrete session. -/
def mWitness : PerformanceMetrics :=
  { communication_score := 1/2
    technical_score := 1/2
    emotional_intelligence_score := 7/10
    behavioral_score := 0
    overall_score := 1/2
    strengths := ["Areas for improvement identified"]
    weaknesses :=
      ["Technical knowledge needs improvement",
       "Communication skills need development",
       "Behavioral responses need refinement"]
    recommendations :=
      ["Practice clear and structured communication",
       "Continue practicing mock interviews",
       "Research the company and role thoroughly"] }

/-- Concrete evaluation of the summarizer on `sOneEmotion`. -/
theorem calc_sOneEmotion :
    calculatePerformanceMetrics sOneEmotion = some mWitness := by
  simp +decide [calculatePerformanceMetrics, sOneEmotion, mkAnswer, collectSome,
    pyMax, maxWeight, mean, identifyStrengths, identifyWeaknesses,
    generateRecommendations, mWitness]
  norm_num

/-! Claim theorems. -/

/-- Claim C1 (amended): `ArmStats` are service-level shared state, not
session-scoped — a single `thompson_params` object on the
`MockInterviewService` singleton is read by selection and mutated by
`submit_answer` for every session.  Submitting an answer for session A
leaves session B's stored document unchanged (store-level isolation), and
the shared Thompson parameters become the update of the previous shared
parameters — the very parameters selection reads for every session,
including B. -/
theorem submitAnswer_shared_arm_stats (bank : List Question)
    (st : ServiceState) (sidA sidB : String) (a : Answer)
    (hAB : sidA ≠ sidB) :
    (submitAnswer bank st sidA a).2.store sidB = st.store sidB ∧
    (∀ sess, st.store sidA = some sess →
      (submitAnswer bank st sidA a).2.thompson_params =
        updateThompsonParams bank st.thompson_params a) := by
  constructor
  · unfold submitAnswer
    cases h : st.store sidA with
    | none => rfl
    | some sess => simp [if_neg (Ne.symm hAB)]
  · intro sess hsess
    unfold submitAnswer
    rw [hsess]

/-- Witness for `submitAnswer_shared_arm_stats`: concrete sessions "A" and
"B". -/
theorem submitAnswer_shared_arm_stats_witness :
    ("A" : String) ≠ "B" ∧ stAB.store "A" = some sessA ∧
    ((submitAnswer questionBank stAB "A" ansTech1).2.store "B" = stAB.store "B" ∧
      (∀ sess, stAB.store "A" = some sess →
        (submitAnswer questionBank stAB "A" ansTech1).2.thompson_params =
          updateThompsonParams questionBank stAB.thompson_params ansTech1)) :=
  ⟨by decide, rfl, submitAnswer_shared_arm_stats questionBank stAB "A" "B" ansTech1 (by decide)⟩

/-- Claim C1 counterexample: arm isolation fails on the code.  After
submitting a strong answer for session "A", the Beta parameters that
`thompson_sampling_question_selection` computes for the technical type-arm
— the parameters it would use when selecting for the distinct session "B"
— have changed. -/
theorem submitAnswer_changes_other_sessions_arms :
    ("A" : String) ≠ "B" ∧
    (submitAnswer questionBank stAB "A" ansTech1).1 = true ∧
    selectionTypeBetaParams stAB QuestionType.technical = (1, 1) ∧
    selectionTypeBetaParams (submitAnswer questionBank stAB "A" ansTech1).2
      QuestionType.technical = (2, 1) := by
  refine ⟨by decide, rfl, rfl, ?_⟩
  simp only [submitAnswer, stAB, selectionTypeBetaParams, updateThompsonParams,
    ansTech1, mkAnswer, questionBank]
  norm_num

/-- Claim C2 (amended): the question-count cutoff of
`should_end_interview` is the hardcoded constant 10 — for every session
with at least 10 recorded answers it returns true regardless of the
recorded scores. -/
theorem shouldEndInterview_count_cutoff (s : MockSession)
    (h : 10 ≤ s.answers.length) : shouldEndInterview s = true := by
  simp only [shouldEndInterview]
  rw [if_pos h]

/-- Witness for `shouldEndInterview_count_cutoff` at the concrete
ten-answer session `sVaried`. -/
theorem shouldEndInterview_count_cutoff_witness :
    10 ≤ sVaried.answers.length ∧ shouldEndInterview sVaried = true :=
  ⟨by decide, shouldEndInterview_count_cutoff sVaried (by decide)⟩

/-- Claim C2 counterexample: the cutoff is neither 20 nor configurable.
`max_questions` defaults to 10 (`models/interview.py`), and
`should_end_interview` stops a session with exactly 10 answers whose
scores fire neither the plateau rule nor the poor-performance rule — under
the claimed default-20 cutoff no stop rule would apply. -/
theorem shouldEndInterview_stops_at_ten_not_twenty :
    defaultMaxQuestions = 10 ∧
    ({ } : IVSession).max_questions = 10 ∧
    sVaried.answers.length = 10 ∧
    ¬ (20 : ℕ) ≤ sVaried.answers.length ∧
    ¬ pvariance (lastN 5 (sVaried.answers.map Answer.technical_score)) < (1/10) ^ 2 ∧
    ¬ mean (lastN 3 (sVaried.answers.map Answer.technical_score)) < 2/5 ∧
    shouldEndInterview sVaried = true := by
  refine ⟨rfl, rfl, by decide, by decide, ?_, ?_, ?_⟩
  · norm_num [sVaried, variedScores, mkAnswer, pvariance, mean, lastN]
  · norm_num [sVaried, variedScores, mkAnswer, mean, lastN]
  · simp only [shouldEndInterview]
    rw [if_pos (by decide : 10 ≤ sVaried.answers.length)]

/-- Claim C3 (amended): `InterviewService.start_interview_session` rejects
Start on a session whose status is not Created, with an error carrying the
current status, leaving the store unchanged; but
`MockInterviewService.start_interview` performs no status check at all —
it reports success and silently moves even a Completed session to
InProgress. -/
theorem start_status_check (gen : List String)
    (store2 : String → Option IVSession) (sid2 : String) (sess2 : IVSession)
    (st : ServiceState) (sid : String) (sess : MockSession)
    (h2 : store2 sid2 = some sess2) (hnc : sess2.status ≠ .created)
    (hm : st.store sid = some sess) :
    startInterviewSession gen store2 sid2 = .error (.invalidState sess2.status) ∧
    (mockStartInterview st sid).1 = true ∧
    (mockStartInterview st sid).2.store sid =
      some { sess with status := MockStatus.in_progress } := by
  refine ⟨?_, ?_, ?_⟩
  · simp only [startInterviewSession, h2]
    rw [if_pos hnc]
  · simp only [mockStartInterview, hm]
  · simp only [mockStartInterview, hm, if_pos]

/-- Witness for `start_status_check`: the completed sessions `ivCompleted`
(id "T") and `completedSession` (id "S"). -/
theorem start_status_check_witness :
    (ivStore "T" = some ivCompleted ∧ ivCompleted.status ≠ IVStatus.created ∧
      stCompleted.store "S" = some completedSession) ∧
    (startInterviewSession [] ivStore "T" =
        .error (.invalidState ivCompleted.status) ∧
      (mockStartInterview stCompleted "S").1 = true ∧
      (mockStartInterview stCompleted "S").2.store "S" =
        some { completedSession with status := MockStatus.in_progress }) :=
  ⟨⟨rfl, by decide, rfl⟩,
    start_status_check [] ivStore "T" ivCompleted stCompleted "S"
      completedSession rfl (by decide) rfl⟩

/-- Claim C3 counterexample: calling Start on a Completed session through
`MockInterviewService.start_interview` does not fail and is not rejected —
it returns success and rewrites the stored status to InProgress. -/
theorem mockStart_completed_silently_succeeds :
    completedSession.status = MockStatus.completed ∧
    (mockStartInterview stCompleted "S").1 = true ∧
    (mockStartInterview stCompleted "S").2.store "S" =
      some { completedSession with status := MockStatus.in_progress } := by
  exact ⟨rfl, rfl, rfl⟩

/-- Claim C4 (amended): for every session with at least one answer in
which every answer carries emotion data, the summarizer returns metrics
whose emotional-intelligence score is the mean over answers of the
dominant (maximal) emotion weight.  There is no 0.5 default: an answer
with an empty emotion dict makes the computation raise
(see the counterexample). -/
theorem emotional_intelligence_mean_of_max (s : MockSession)
    (h1 : s.answers ≠ []) (h2 : ∀ a ∈ s.answers, a.emotion_scores ≠ []) :
    ∃ m, calculatePerformanceMetrics s = some m ∧
      m.emotional_intelligence_score =
        mean (s.answers.map (fun a => maxWeight a.emotion_scores)) := by
  simp only [calculatePerformanceMetrics, if_neg h1,
    collectSome_emotions s.answers h2]
  exact ⟨_, rfl, rfl⟩

/-- Witness for `emotional_intelligence_mean_of_max` at the one-answer
session `sOneEmotion`. -/
theorem emotional_intelligence_mean_of_max_witness :
    (sOneEmotion.answers ≠ [] ∧
      ∀ a ∈ sOneEmotion.answers, a.emotion_scores ≠ []) ∧
    (∃ m, calculatePerformanceMetrics sOneEmotion = some m ∧
      m.emotional_intelligence_score =
        mean (sOneEmotion.answers.map (fun a => maxWeight a.emotion_scores))) :=
  ⟨⟨by decide, by decide⟩,
    emotional_intelligence_mean_of_max sOneEmotion (by decide) (by decide)⟩

/-- Claim C4 counterexample: an answer with no emotion data does not
contribute a default 0.5 — `max()` over the empty dict raises, so the
summarizer fails (returns `none`) on a non-empty session whose single
answer has an empty emotion dict. -/
theorem metrics_raise_on_empty_emotions :
    sEmptyEmotion.answers.length = 1 ∧
    sEmptyEmotion.answers.map Answer.emotion_scores = [[]] ∧
    calculatePerformanceMetrics sEmptyEmotion = none :=
  ⟨rfl, rfl, rfl⟩

/-- Claim C9 (amended): for every session with at least one answer on
which the summarizer succeeds, the strengths and weaknesses lists are
non-empty; each axis averaging ≥ 0.8 contributes its strength line, each
axis below 0.6 its weakness line, and when no axis qualifies the
respective list is exactly the single placeholder.  (A session with no
answers, by contrast, short-circuits to the default metrics whose lists
are empty — see the counterexample.) -/
theorem summarize_lists_nonempty (s : MockSession) (m : PerformanceMetrics)
    (h1 : s.answers ≠ []) (hm : calculatePerformanceMetrics s = some m) :
    m.strengths ≠ [] ∧ m.weaknesses ≠ [] ∧
    (4/5 ≤ m.technical_score → "Strong technical knowledge" ∈ m.strengths) ∧
    (4/5 ≤ m.communication_score → "Excellent communication skills" ∈ m.strengths) ∧
    (4/5 ≤ m.emotional_intelligence_score → "High emotional intelligence" ∈ m.strengths) ∧
    (4/5 ≤ m.behavioral_score → "Good behavioral responses" ∈ m.strengths) ∧
    (m.technical_score < 3/5 → "Technical knowledge needs improvement" ∈ m.weaknesses) ∧
    (m.communication_score < 3/5 → "Communication skills need development" ∈ m.weaknesses) ∧
    (m.emotional_intelligence_score < 3/5 → "Emotional intelligence could be enhanced" ∈ m.weaknesses) ∧
    (m.behavioral_score < 3/5 → "Behavioral responses need refinement" ∈ m.weaknesses) ∧
    (¬ 4/5 ≤ m.technical_score → ¬ 4/5 ≤ m.communication_score →
      ¬ 4/5 ≤ m.emotional_intelligence_score → ¬ 4/5 ≤ m.behavioral_score →
      m.strengths = ["Areas for improvement identified"]) ∧
    (¬ m.technical_score < 3/5 → ¬ m.communication_score < 3/5 →
      ¬ m.emotional_intelligence_score < 3/5 → ¬ m.behavioral_score < 3/5 →
      m.weaknesses = ["No significant weaknesses identified"]) := by
  have hes : ∃ es,
      collectSome (s.answers.map (fun a => pyMax (a.emotion_scores.map Prod.snd))) =
        some es := by
    cases hc : collectSome
        (s.answers.map (fun a => pyMax (a.emotion_scores.map Prod.snd))) with
    | none =>
      rw [calculatePerformanceMetrics, if_neg h1] at hm
      rw [hc] at hm
      exact absurd hm (by simp)
    | some es => exact ⟨es, rfl⟩
  obtain ⟨es, hes⟩ := hes
  rw [calculatePerformanceMetrics, if_neg h1] at hm
  rw [hes] at hm
  rw [Option.some.injEq] at hm
  subst hm
  refine ⟨identifyStrengths_ne_nil _, identifyWeaknesses_ne_nil _,
    (identifyStrengths_mem _).1, (identifyStrengths_mem _).2.1,
    (identifyStrengths_mem _).2.2.1, (identifyStrengths_mem _).2.2.2,
    (identifyWeaknesses_mem _).1, (identifyWeaknesses_mem _).2.1,
    (identifyWeaknesses_mem _).2.2.1, (identifyWeaknesses_mem _).2.2.2,
    identifyStrengths_placeholder _, identifyWeaknesses_placeholder _⟩

/-- Witness for `summarize_lists_nonempty` at `sOneEmotion` with its
hand-computed metrics. -/
theorem summarize_lists_nonempty_witness :
    sOneEmotion.answers ≠ [] ∧
    (mWitness.strengths ≠ [] ∧ mWitness.weaknesses ≠ [] ∧
      (4/5 ≤ mWitness.technical_score → "Strong technical knowledge" ∈ mWitness.strengths) ∧
      (4/5 ≤ mWitness.communication_score → "Excellent communication skills" ∈ mWitness.strengths) ∧
      (4/5 ≤ mWitness.emotional_intelligence_score → "High emotional intelligence" ∈ mWitness.strengths) ∧
      (4/5 ≤ mWitness.behavioral_score → "Good behavioral responses" ∈ mWitness.strengths) ∧
      (mWitness.technical_score < 3/5 → "Technical knowledge needs improvement" ∈ mWitness.weaknesses) ∧
      (mWitness.communication_score < 3/5 → "Communication skills need development" ∈ mWitness.weaknesses) ∧
      (mWitness.emotional_intelligence_score < 3/5 → "Emotional intelligence could be enhanced" ∈ mWitness.weaknesses) ∧
      (mWitness.behavioral_score < 3/5 → "Behavioral responses need refinement" ∈ mWitness.weaknesses) ∧
      (¬ 4/5 ≤ mWitness.technical_score → ¬ 4/5 ≤ mWitness.communication_score →
        ¬ 4/5 ≤ mWitness.emotional_intelligence_score → ¬ 4/5 ≤ mWitness.behavioral_score →
        mWitness.strengths = ["Areas for improvement identified"]) ∧
      (¬ mWitness.technical_score < 3/5 → ¬ mWitness.communication_score < 3/5 →
        ¬ mWitness.emotional_intelligence_score < 3/5 → ¬ mWitness.behavioral_score < 3/5 →
        mWitness.weaknesses = ["No significant weaknesses identified"])) :=
  ⟨by decide,
    summarize_lists_nonempty sOneEmotion mWitness (by decide) calc_sOneEmotion⟩

/-- Claim C9 counterexample: a session with no answers is summarized to
the default metrics, whose strengths and weaknesses lists are both empty —
`Summarize` does return empty lists there. -/
theorem summarize_empty_session_empty_lists :
    calculatePerformanceMetrics sNoAnswers = some { } ∧
    ({ } : PerformanceMetrics).strengths = [] ∧
    ({ } : PerformanceMetrics).weaknesses = [] :=
  ⟨rfl, rfl, rfl⟩

/-- Claim C5: the performance level over a non-empty answer list is low
iff the mean technical score is < 0.6, high iff it is ≥ 0.8, else medium;
at level high the difficulty draw of Beginner/Intermediate candidates is
multiplied by 0.7 before combining, at level low that of Advanced/Expert
candidates, no penalty otherwise; the combined score is
(typeSample + difficultySample + relevance) / 3. -/
theorem adaptive_difficulty_pacing (ts : QuestionType → ℚ)
    (ds : DifficultyLevel → ℚ) (s : MockSession) (q : Question)
    (h : s.answers ≠ []) :
    (getPerformanceLevel s = .low ↔
      mean (s.answers.map Answer.technical_score) < 3/5) ∧
    (getPerformanceLevel s = .high ↔
      4/5 ≤ mean (s.answers.map Answer.technical_score)) ∧
    (getPerformanceLevel s = .medium ↔
      (3/5 ≤ mean (s.answers.map Answer.technical_score) ∧
        mean (s.answers.map Answer.technical_score) < 4/5)) ∧
    (getPerformanceLevel s = .high →
      (q.difficulty = .beginner ∨ q.difficulty = .intermediate) →
      questionScore ts ds (getPerformanceLevel s) s q =
        (ts q.type + ds q.difficulty * (7/10) +
          calculateQuestionRelevance q s) / 3) ∧
    (getPerformanceLevel s = .low →
      (q.difficulty = .advanced ∨ q.difficulty = .expert) →
      questionScore ts ds (getPerformanceLevel s) s q =
        (ts q.type + ds q.difficulty * (7/10) +
          calculateQuestionRelevance q s) / 3) ∧
    (getPerformanceLevel s = .high →
      (q.difficulty = .advanced ∨ q.difficulty = .expert) →
      questionScore ts ds (getPerformanceLevel s) s q =
        (ts q.type + ds q.difficulty + calculateQuestionRelevance q s) / 3) ∧
    (getPerformanceLevel s = .low →
      (q.difficulty = .beginner ∨ q.difficulty = .intermediate) →
      questionScore ts ds (getPerformanceLevel s) s q =
        (ts q.type + ds q.difficulty + calculateQuestionRelevance q s) / 3) ∧
    (getPerformanceLevel s = .medium →
      questionScore ts ds (getPerformanceLevel s) s q =
        (ts q.type + ds q.difficulty + calculateQuestionRelevance q s) / 3) := by
  have hlvl : getPerformanceLevel s =
      (if 4/5 ≤ mean (s.answers.map Answer.technical_score) then PerfLevel.high
       else if 3/5 ≤ mean (s.answers.map Answer.technical_score) then PerfLevel.medium
       else PerfLevel.low) := by
    simp only [getPerformanceLevel, if_neg h]
  refine ⟨?_, ?_, ?_, ?_, ?_, ?_, ?_, ?_⟩
  · rw [hlvl]
    split_ifs with h1 h2 <;> constructor <;> intro hh <;>
      first
        | linarith
        | simp_all
  · rw [hlvl]
    split_ifs with h1 h2 <;> constructor <;> intro hh <;>
      first
        | linarith
        | simp_all
  · rw [hlvl]
    split_ifs with h1 h2 <;> constructor <;> (try intro hh) <;>
      first
        | (exact ⟨by linarith, by linarith⟩)
        | linarith
        | simp_all
  · intro hl hd
    rw [hl]
    rcases hd with hd | hd <;> simp [questionScore, hd]
  · intro hl hd
    rw [hl]
    rcases hd with hd | hd <;> simp [questionScore, hd]
  · intro hl hd
    rw [hl]
    simp only [questionScore]
    rcases hd with hd | hd <;> simp [hd]
  · intro hl hd
    rw [hl]
    simp only [questionScore]
    rcases hd with hd | hd <;> simp [hd]
  · intro hl
    rw [hl]
    simp [questionScore]

/-- Witness for `adaptive_difficulty_pacing` at the ten-answer session
`sVaried` and the first bank question. -/
theorem adaptive_difficulty_pacing_witness :
    sVaried.answers ≠ [] ∧
    ((getPerformanceLevel sVaried = .low ↔
      mean (sVaried.answers.map Answer.technical_score) < 3/5) ∧
    (getPerformanceLevel sVaried = .high ↔
      4/5 ≤ mean (sVaried.answers.map Answer.technical_score)) ∧
    (getPerformanceLevel sVaried = .medium ↔
      (3/5 ≤ mean (sVaried.answers.map Answer.technical_score) ∧
        mean (sVaried.answers.map Answer.technical_score) < 4/5)) ∧
    (getPerformanceLevel sVaried = .high →
      (Question.difficulty { id := "tech_1", text := "Explain the concept of object-oriented programming and its main principles.", type := .technical, difficulty := .intermediate, category := "Programming Fundamentals", expected_keywords := ["encapsulation", "inheritance", "polymorphism", "abstraction"] } = .beginner ∨
        Question.difficulty { id := "tech_1", text := "Explain the concept of object-oriented programming and its main principles.", type := .technical, difficulty := .intermediate, category := "Programming Fundamentals", expected_keywords := ["encapsulation", "inheritance", "polymorphism", "abstraction"] } = .intermediate) →
      questionScore tsConst dsConst (getPerformanceLevel sVaried) sVaried { id := "tech_1", text := "Explain the concept of object-oriented programming and its main principles.", type := .technical, difficulty := .intermediate, category := "Programming Fundamentals", expected_keywords := ["encapsulation", "inheritance", "polymorphism", "abstraction"] } =
        (tsConst QuestionType.technical + dsConst DifficultyLevel.intermediate * (7/10) +
          calculateQuestionRelevance { id := "tech_1", text := "Explain the concept of object-oriented programming and its main principles.", type := .technical, difficulty := .intermediate, category := "Programming Fundamentals", expected_keywords := ["encapsulation", "inheritance", "polymorphism", "abstraction"] } sVaried) / 3) ∧
    (getPerformanceLevel sVaried = .low →
      (Question.difficulty { id := "tech_1", text := "Explain the concept of object-oriented programming and its main principles.", type := .technical, difficulty := .intermediate, category := "Programming Fundamentals", expected_keywords := ["encapsulation", "inheritance", "polymorphism", "abstraction"] } = .advanced ∨
        Question.difficulty { id := "tech_1", text := "Explain the concept of object-oriented programming and its main principles.", type := .technical, difficulty := .intermediate, category := "Programming Fundamentals", expected_keywords := ["encapsulation", "inheritance", "polymorphism", "abstraction"] } = .expert) →
      questionScore tsConst dsConst (getPerformanceLevel sVaried) sVaried { id := "tech_1", text := "Explain the concept of object-oriented programming and its main principles.", type := .technical, difficulty := .intermediate, category := "Programming Fundamentals", expected_keywords := ["encapsulation", "inheritance", "polymorphism", "abstraction"] } =
        (tsConst QuestionType.technical + dsConst DifficultyLevel.intermediate * (7/10) +
          calculateQuestionRelevance { id := "tech_1", text := "Explain the concept of object-oriented programming and its main principles.", type := .technical, difficulty := .intermediate, category := "Programming Fundamentals", expected_keywords := ["encapsulation", "inheritance", "polymorphism", "abstraction"] } sVaried) / 3) ∧
    (getPerformanceLevel sVaried = .high →
      (Question.difficulty { id := "tech_1", text := "Explain the concept of object-oriented programming and its main principles.", type := .technical, difficulty := .intermediate, category := "Programming Fundamentals", expected_keywords := ["encapsulation", "inheritance", "polymorphism", "abstraction"] } = .advanced ∨
        Question.difficulty { id := "tech_1", text := "Explain the concept of object-oriented programming and its main principles.", type := .technical, difficulty := .intermediate, category := "Programming Fundamentals", expected_keywords := ["encapsulation", "inheritance", "polymorphism", "abstraction"] } = .expert) →
      questionScore tsConst dsConst (getPerformanceLevel sVaried) sVaried { id := "tech_1", text := "Explain the concept of object-oriented programming and its main principles.", type := .technical, difficulty := .intermediate, category := "Programming Fundamentals", expected_keywords := ["encapsulation", "inheritance", "polymorphism", "abstraction"] } =
        (tsConst QuestionType.technical + dsConst DifficultyLevel.intermediate +
          calculateQuestionRelevance { id := "tech_1", text := "Explain the concept of object-oriented programming and its main principles.", type := .technical, difficulty := .intermediate, category := "Programming Fundamentals", expected_keywords := ["encapsulation", "inheritance", "polymorphism", "abstraction"] } sVaried) / 3) ∧
    (getPerformanceLevel sVaried = .low →
      (Question.difficulty { id := "tech_1", text := "Explain the concept of object-oriented programming and its main principles.", type := .technical, difficulty := .intermediate, category := "Programming Fundamentals", expected_keywords := ["encapsulation", "inheritance", "polymorphism", "abstraction"] } = .beginner ∨
        Question.difficulty { id := "tech_1", text := "Explain the concept of object-oriented programming and its main principles.", type := .technical, difficulty := .intermediate, category := "Programming Fundamentals", expected_keywords := ["encapsulation", "inheritance", "polymorphism", "abstraction"] } = .intermediate) →
      questionScore tsConst dsConst (getPerformanceLevel sVaried) sVaried { id := "tech_1", text := "Explain the concept of object-oriented programming and its main principles.", type := .technical, difficulty := .intermediate, category := "Programming Fundamentals", expected_keywords := ["encapsulation", "inheritance", "polymorphism", "abstraction"] } =
        (tsConst QuestionType.technical + dsConst DifficultyLevel.intermediate +
          calculateQuestionRelevance { id := "tech_1", text := "Explain the concept of object-oriented programming and its main principles.", type := .technical, difficulty := .intermediate, category := "Programming Fundamentals", expected_keywords := ["encapsulation", "inheritance", "polymorphism", "abstraction"] } sVaried) / 3) ∧
    (getPerformanceLevel sVaried = .medium →
      questionScore tsConst dsConst (getPerformanceLevel sVaried) sVaried { id := "tech_1", text := "Explain the concept of object-oriented programming and its main principles.", type := .technical, difficulty := .intermediate, category := "Programming Fundamentals", expected_keywords := ["encapsulation", "inheritance", "polymorphism", "abstraction"] } =
        (tsConst QuestionType.technical + dsConst DifficultyLevel.intermediate +
          calculateQuestionRelevance { id := "tech_1", text := "Explain the concept of object-oriented programming and its main principles.", type := .technical, difficulty := .intermediate, category := "Programming Fundamentals", expected_keywords := ["encapsulation", "inheritance", "polymorphism", "abstraction"] } sVaried) / 3)) :=
  ⟨by decide,
    adaptive_difficulty_pacing tsConst dsConst sVaried
      { id := "tech_1", text := "Explain the concept of object-oriented programming and its main principles.", type := .technical, difficulty := .intermediate, category := "Programming Fundamentals", expected_keywords := ["encapsulation", "inheritance", "polymorphism", "abstraction"] }
      (by decide)⟩

/-- Claim C8: when the text-analysis call fails the produced answer
carries the neutral defaults technical 0.5, confidence 0.5, sentiment 0;
when the audio-feature extraction fails it carries fluency 0.5; in both
cases `analyze_response` still returns an `Answer`. -/
theorem score_neutral_defaults :
    (∀ (audioOracle : Option AudioAnalysis) (q : Question) (t : String) (d : ℚ),
      (analyzeResponse none audioOracle q t d).technical_score = 1/2 ∧
      (analyzeResponse none audioOracle q t d).confidence_score = 1/2 ∧
      (analyzeResponse none audioOracle q t d).sentiment_score = 0) ∧
    (∀ (textOracle : Option TextAnalysisResult) (q : Question) (t : String) (d : ℚ),
      (analyzeResponse textOracle none q t d).fluency_score = 1/2) :=
  ⟨fun _ _ _ _ => ⟨rfl, rfl, rfl⟩, fun _ _ _ _ => rfl⟩

/-- Claim C6 (amended): when at least one bank question is still unseen,
selection returns an unseen question holding the highest combined score,
ties broken by candidate-pool (bank) order — the candidate list splits
into a strictly-lower-scored prefix, the chosen question, and a
no-higher-scored suffix.  The no-candidate fallback, by contrast, draws
from the full bank and can repeat an already-asked question (see the
counterexample). -/
theorem selection_stable_argmax_unseen (ts : QuestionType → ℚ)
    (ds : DifficultyLevel → ℚ) (bank : List Question) (s : MockSession)
    (i : ℕ) (h : ∃ q ∈ bank, ¬ q.id ∈ s.questions_asked) :
    ∃ r l₁ l₂,
      thompsonSamplingQuestionSelection ts ds bank s i = some r ∧
      ¬ r.id ∈ s.questions_asked ∧
      scoredCandidates ts ds bank s =
        l₁ ++ (r, questionScore ts ds (getPerformanceLevel s) s r) :: l₂ ∧
      (∀ x ∈ l₁, x.2 < questionScore ts ds (getPerformanceLevel s) s r) ∧
      (∀ x ∈ l₂, x.2 ≤ questionScore ts ds (getPerformanceLevel s) s r) := by
  obtain ⟨q, hq, hqa⟩ := h
  have hqf : q ∈ bank.filter (fun q => ¬ q.id ∈ s.questions_asked) :=
    List.mem_filter.mpr ⟨hq, by simpa using hqa⟩
  have hne : scoredCandidates ts ds bank s ≠ [] := by
    simp only [scoredCandidates]
    intro hnil
    rw [List.map_eq_nil_iff] at hnil
    rw [hnil] at hqf
    exact List.not_mem_nil q hqf
  obtain ⟨c, cs, hcs⟩ := List.exists_cons_of_ne_nil hne
  obtain ⟨l₁, l₂, heq, h₁, h₂⟩ := pickBest_split cs c
  have hbmem : pickBest c cs ∈ scoredCandidates ts ds bank s := by
    rw [hcs, heq]
    exact List.mem_append_right _ (List.mem_cons_self _ _)
  have hbform : ∃ q₀, q₀ ∈ bank.filter (fun q => ¬ q.id ∈ s.questions_asked) ∧
      pickBest c cs = (q₀, questionScore ts ds (getPerformanceLevel s) s q₀) := by
    simp only [scoredCandidates, List.mem_map] at hbmem
    obtain ⟨q₀, hq₀, hbq⟩ := hbmem
    exact ⟨q₀, hq₀, hbq.symm⟩
  obtain ⟨q₀, hq₀f, hbq⟩ := hbform
  refine ⟨q₀, l₁, l₂, ?_, ?_, ?_, ?_, ?_⟩
  · simp only [thompsonSamplingQuestionSelection]
    rw [hcs]
    simp only [hbq]
  · have := List.mem_filter.mp hq₀f
    simpa using this.2
  · rw [hcs, heq, hbq]
  · intro x hx
    have := h₁ x hx
    rw [hbq] at this
    exact this
  · intro x hx
    have := h₂ x hx
    rw [hbq] at this
    exact this

/-- Witness for `selection_stable_argmax_unseen`: the fresh session and
the built-in bank. -/
theorem selection_stable_argmax_unseen_witness :
    (∃ q ∈ questionBank, ¬ q.id ∈ freshSession.questions_asked) ∧
    (∃ r l₁ l₂,
      thompsonSamplingQuestionSelection tsConst dsConst questionBank
        freshSession 0 = some r ∧
      ¬ r.id ∈ freshSession.questions_asked ∧
      scoredCandidates tsConst dsConst questionBank freshSession =
        l₁ ++ (r, questionScore tsConst dsConst
          (getPerformanceLevel freshSession) freshSession r) :: l₂ ∧
      (∀ x ∈ l₁, x.2 < questionScore tsConst dsConst
        (getPerformanceLevel freshSession) freshSession r) ∧
      (∀ x ∈ l₂, x.2 ≤ questionScore tsConst dsConst
        (getPerformanceLevel freshSession) freshSession r)) :=
  ⟨by decide,
    selection_stable_argmax_unseen tsConst dsConst questionBank freshSession 0
      (by decide)⟩

/-- Claim C6 counterexample: in a reachable session state (five selection
steps exhaust the five-question bank), the sixth call takes the
no-candidate fallback path and returns `tech_1`, which is already in
`questions_asked`; appending it makes the id appear twice. -/
theorem fallback_repeats_asked_question :
    (sessAfter 5).questions_asked =
      ["tech_1", "behav_1", "sit_1", "prob_1", "cult_1"] ∧
    (thompsonSamplingQuestionSelection tsConst dsConst questionBank
        (sessAfter 5) 0).map Question.id = some "tech_1" ∧
    "tech_1" ∈ (sessAfter 5).questions_asked ∧
    (sessAfter 6).questions_asked =
      ["tech_1", "behav_1", "sit_1", "prob_1", "cult_1", "tech_1"] ∧
    (sessAfter 6).questions_asked.count "tech_1" = 2 := by
  refine ⟨?_, ?_, ?_, ?_, ?_⟩
  · rw [traceStep5]
  · rw [traceStep5]
    simp +decide [thompsonSamplingQuestionSelection, scoredCandidates,
      questionBank]
  · rw [traceStep5]
    decide
  · rw [traceStep6]
  · rw [traceStep6]
    decide

/-- Claim C7: whenever the external contextual-question call fails (API
error, unparseable output, or missing fields), the generator does not
fail: it returns the deterministic fallback template of the
currently-computed target difficulty — identity `fallback_<difficulty>`
(the audit marker), the question tagged with that difficulty, and the
fixed keyword set of that difficulty. -/
theorem generator_failure_fallback (st : QGenState)
    (technical communication confidence : ℚ) (outcome : GenOutcome)
    (h : outcome = .apiError ∨ outcome = .unparseable ∨
      outcome = .missingFields) :
    (generateContextualNextQuestion st technical communication confidence
        outcome).1 =
      getFallbackQuestion (adjustDifficultyBasedOnPerformance
        (updateDifficulty st).current_difficulty technical communication
        confidence) ∧
    ((generateContextualNextQuestion st technical communication confidence
        outcome).1).id =
      "fallback_" ++ (adjustDifficultyBasedOnPerformance
        (updateDifficulty st).current_difficulty technical communication
        confidence).value ∧
    ((generateContextualNextQuestion st technical communication confidence
        outcome).1).difficulty =
      adjustDifficultyBasedOnPerformance
        (updateDifficulty st).current_difficulty technical communication
        confidence ∧
    ((generateContextualNextQuestion st technical communication confidence
        outcome).1).expected_keywords =
      fallbackKeywords (adjustDifficultyBasedOnPerformance
        (updateDifficulty st).current_difficulty technical communication
        confidence) := by
  rcases h with h | h | h <;> subst h <;> exact ⟨rfl, rfl, rfl, rfl⟩

/-- Witness for `generator_failure_fallback`: fresh generator state,
neutral performance, API error outcome. -/
theorem generator_failure_fallback_witness :
    (GenOutcome.apiError = GenOutcome.apiError ∨
      GenOutcome.apiError = GenOutcome.unparseable ∨
      GenOutcome.apiError = GenOutcome.missingFields) ∧
    ((generateContextualNextQuestion { } (1/2) (1/2) (1/2)
        GenOutcome.apiError).1 =
      getFallbackQuestion (adjustDifficultyBasedOnPerformance
        (updateDifficulty { }).current_difficulty (1/2) (1/2) (1/2)) ∧
    ((generateContextualNextQuestion { } (1/2) (1/2) (1/2)
        GenOutcome.apiError).1).id =
      "fallback_" ++ (adjustDifficultyBasedOnPerformance
        (updateDifficulty { }).current_difficulty (1/2) (1/2) (1/2)).value ∧
    ((generateContextualNextQuestion { } (1/2) (1/2) (1/2)
        GenOutcome.apiError).1).difficulty =
      adjustDifficultyBasedOnPerformance
        (updateDifficulty { }).current_difficulty (1/2) (1/2) (1/2) ∧
    ((generateContextualNextQuestion { } (1/2) (1/2) (1/2)
        GenOutcome.apiError).1).expected_keywords =
      fallbackKeywords (adjustDifficultyBasedOnPerformance
        (updateDifficulty { }).current_difficulty (1/2) (1/2) (1/2))) :=
  ⟨Or.inl rfl,
    generator_failure_fallback { } (1/2) (1/2) (1/2) GenOutcome.apiError
      (Or.inl rfl)⟩

/-- Claim C10: submitting an answer whose `question_id` matches no bank
question appends the answer to the session but leaves every Thompson
counter unchanged — the bandit update is silently skipped. -/
theorem unknown_question_skips_bandit_update (bank : List Question)
    (st : ServiceState) (sid : String) (a : Answer) (sess : MockSession)
    (hs : st.store sid = some sess)
    (hnq : ∀ q ∈ bank, q.id ≠ a.question_id) :
    (submitAnswer bank st sid a).1 = true ∧
    (submitAnswer bank st sid a).2.thompson_params = st.thompson_params ∧
    (submitAnswer bank st sid a).2.store sid =
      some { sess with answers := sess.answers ++ [a] } := by
  have hfind : bank.find? (fun q => q.id = a.question_id) = none := by
    rw [List.find?_eq_none]
    intro q hq
    simpa using hnq q hq
  refine ⟨?_, ?_, ?_⟩
  · simp only [submitAnswer, hs]
  · simp only [submitAnswer, hs, updateThompsonParams, hfind]
  · simp only [submitAnswer, hs, if_pos]

/-- Witness for `unknown_question_skips_bandit_update`: an answer to a
contextually generated question id absent from the built-in bank. -/
theorem unknown_question_skips_bandit_update_witness :
    (stAB.store "A" = some sessA ∧
      ∀ q ∈ questionBank, q.id ≠ "ctx_q_1") ∧
    ((submitAnswer questionBank stAB "A" (mkAnswer "ctx_q_1" 1)).1 = true ∧
      (submitAnswer questionBank stAB "A"
        (mkAnswer "ctx_q_1" 1)).2.thompson_params = stAB.thompson_params ∧
      (submitAnswer questionBank stAB "A" (mkAnswer "ctx_q_1" 1)).2.store "A" =
        some { sessA with answers := sessA.answers ++ [mkAnswer "ctx_q_1" 1] }) :=
  ⟨⟨rfl, by decide⟩,
    unknown_question_skips_bandit_update questionBank stAB "A"
      (mkAnswer "ctx_q_1" 1) sessA rfl (by decide)⟩

end NavigAI
